import Mathlib

/-!
Verification of `stackconsult/Telegram-bot-api` against its natural-language
specification.  The Python source is shallowly embedded: each relevant class
becomes a Lean structure, each method a pure function with explicit state
passing; `ValueError` and other exceptions become `Except String`; Python
`float` event-loop timestamps are modelled by exact rationals `ℚ` (only
order and subtraction of times is used by the code); Python dictionaries
become functions into `Option`.
-/

-- Batteries marks rational arithmetic `@[irreducible]`; concrete witnesses
-- and counterexamples below evaluate it with `decide`, so re-open it here.
unseal Rat.sub Rat.mul Rat.inv

namespace TgApi

/-! ### `RateLimiter` (src/telegram_api/utils/__init__.py)

State: `max_requests`, `time_window`, and `requests : Dict[str, List[float]]`,
modelled as `String → Option (List ℚ)` (a key absent from the dict is `none`).
`check_limit` takes the current event-loop time as an explicit argument and
returns the result together with the updated state. -/

structure RateLimiter where
  max_requests : Nat
  time_window : ℚ
  requests : String → Option (List ℚ)

/-- Embeds `RateLimiter.check_limit`.  The Python body: ensure the key is
present, drop stored times `≤ current_time - time_window`, refuse when the
remaining count has reached `max_requests`, otherwise append `current_time`
and allow. -/
def RateLimiter.check_limit (rl : RateLimiter) (key : String) (current_time : ℚ) :
    Bool × RateLimiter :=
  -- `if key not in self.requests: self.requests[key] = []`
  let stored : List ℚ := (rl.requests key).getD []
  -- `cutoff_time = current_time - self.time_window`
  let cutoff_time : ℚ := current_time - rl.time_window
  -- `self.requests[key] = [t for t in self.requests[key] if t > cutoff_time]`
  let pruned : List ℚ := stored.filter (fun req_time => cutoff_time < req_time)
  if rl.max_requests ≤ pruned.length then
    -- `if len(self.requests[key]) >= self.max_requests: return False`
    (false, { rl with requests := fun k => if k = key then some pruned else rl.requests k })
  else
    -- `self.requests[key].append(current_time); return True`
    (true, { rl with requests := fun k =>
      if k = key then some (pruned ++ [current_time]) else rl.requests k })

/-- Embeds `RateLimiter.get_remaining_requests`:
`max(0, max_requests - len(recent_requests))`, or `max_requests` outright when
the key was never seen. -/
def RateLimiter.get_remaining_requests (rl : RateLimiter) (key : String)
    (current_time : ℚ) : Int :=
  match rl.requests key with
  | none => (rl.max_requests : Int)
  | some stored =>
      let recent := stored.filter (fun req_time => current_time - rl.time_window < req_time)
      max 0 ((rl.max_requests : Int) - recent.length)

/-- The number of stored request timestamps that lie in the sliding window
`(t - time_window, t]`-open-below, i.e. strictly newer than the cutoff.  This
is the quantity `check_limit` actually counts. -/
def slidingCount (stored : List ℚ) (time_window t : ℚ) : Nat :=
  (stored.filter (fun s => t - time_window < s)).length

/-- Index of the fixed window of width `w` containing time `t`, windows being
anchored at 0 (spec side, for the fixed-window reading of the rate limiter). -/
def windowIdx (w t : ℚ) : ℤ :=
  (t / w).floor

/-- Spec-side definition for the fixed-window reading of C1: the number of
stored request timestamps lying in the same fixed window of width `w` as the
current time `t`. -/
def fixedWindowCount (stored : List ℚ) (w t : ℚ) : Nat :=
  (stored.filter (fun s => windowIdx w s = windowIdx w t)).length

/-- A concrete limiter used to separate the fixed-window reading from the
code: one request allowed per 60 seconds, one request recorded at time 59. -/
def rlFixedCex : RateLimiter :=
  { max_requests := 1
    time_window := 60
    requests := fun k => if k = "k" then some [59] else none }

/-- A concrete limiter in a denied configuration, for the C8 witness. -/
def rlDenied : RateLimiter :=
  { max_requests := 1
    time_window := 60
    requests := fun k => if k = "k" then some [59] else none }

end TgApi

namespace TgApi

/-- C1, counterexample.  The claim reads `check_limit` as a fixed-window
counter: it would return `False` exactly when the count in the current fixed
window has reached `max_requests`.  With `max_requests = 1`,
`time_window = 60`, one granted request at time 59 and a call at time 61, the
current fixed window `[60, 120)` holds 0 requests, yet `check_limit` returns
`False` (59 is still inside the sliding window `(1, 61]`). -/
theorem check_limit_not_fixed_window_cex :
    ¬ (((rlFixedCex.check_limit "k" 61).1 = false) ↔
      rlFixedCex.max_requests ≤ fixedWindowCount [59] rlFixedCex.time_window 61) := by
  decide

/-- C1, amended.  The `RateLimiter` is a sliding-window counter keyed by
string: `check_limit(key)` at time `t` returns `False` exactly when the
number of stored timestamps strictly newer than `t - time_window` has already
reached `max_requests`; old timestamps are pruned on each call, rather than a
count resetting at fixed window boundaries. -/
theorem check_limit_false_iff_sliding_window (rl : RateLimiter) (key : String) (t : ℚ) :
    (rl.check_limit key t).1 = false ↔
      rl.max_requests ≤ slidingCount ((rl.requests key).getD []) rl.time_window t := by
  unfold RateLimiter.check_limit slidingCount
  by_cases h : rl.max_requests ≤
      (((rl.requests key).getD []).filter (fun s => t - rl.time_window < s)).length <;>
    simp [h]

/-- C2.  The rate limiter is a sliding-window limiter: a call to
`check_limit(key)` at time `t` returns `True` and appends `t` to the stored
timestamps if and only if strictly fewer than `max_requests` stored (i.e.
previously granted and not yet pruned) timestamps are strictly greater than
`t - time_window`; otherwise it returns `False` and `t` is not recorded. -/
theorem check_limit_sliding_window_spec (rl : RateLimiter) (key : String) (t : ℚ) :
    ((rl.check_limit key t).1 = true ↔
      slidingCount ((rl.requests key).getD []) rl.time_window t < rl.max_requests) ∧
    ((rl.check_limit key t).2.requests key =
      some (if slidingCount ((rl.requests key).getD []) rl.time_window t < rl.max_requests
        then (((rl.requests key).getD []).filter (fun s => t - rl.time_window < s)) ++ [t]
        else ((rl.requests key).getD []).filter (fun s => t - rl.time_window < s))) := by
  unfold RateLimiter.check_limit slidingCount
  by_cases h : rl.max_requests ≤
      (((rl.requests key).getD []).filter (fun s => t - rl.time_window < s)).length
  · simp [h, Nat.not_lt.mpr h]
  · simp [h, Nat.lt_of_not_le (fun hc => h hc)]

/-- C8.  A denied `check_limit` call does not consume quota: when
`check_limit(key)` at time `t` returns `False`, the stored list for `key`
becomes exactly the pruned old list (no timestamp is added), and
`get_remaining_requests(key)` evaluated at the same time `t` is unchanged. -/
theorem check_limit_denied_consumes_no_quota (rl : RateLimiter) (key : String) (t : ℚ)
    (h : (rl.check_limit key t).1 = false) :
    (rl.check_limit key t).2.requests key =
      some (((rl.requests key).getD []).filter (fun s => t - rl.time_window < s)) ∧
    (rl.check_limit key t).2.get_remaining_requests key t =
      rl.get_remaining_requests key t := by
  have hC : rl.max_requests ≤
      (((rl.requests key).getD []).filter (fun s => t - rl.time_window < s)).length := by
    by_contra hc
    simp [RateLimiter.check_limit, hc] at h
  cases hr : rl.requests key with
  | none =>
      have hmax : rl.max_requests = 0 := by simpa [hr] using hC
      constructor
      · simp [RateLimiter.check_limit, hr, hmax]
      · simp [RateLimiter.check_limit, RateLimiter.get_remaining_requests, hr, hmax]
  | some stored =>
      have hC2 : rl.max_requests ≤
          (stored.filter (fun s => t - rl.time_window < s)).length := by
        simpa [hr] using hC
      constructor
      · simp [RateLimiter.check_limit, hr, hC2]
      · simp [RateLimiter.check_limit, RateLimiter.get_remaining_requests, hr, hC2,
          List.filter_filter]

/-- Witness for C8 at the concrete denied configuration `rlDenied`,
time 61. -/
theorem check_limit_denied_consumes_no_quota_witness :
    (rlDenied.check_limit "k" 61).2.requests "k" =
      some (((rlDenied.requests "k").getD []).filter (fun s => 61 - rlDenied.time_window < s)) ∧
    (rlDenied.check_limit "k" 61).2.get_remaining_requests "k" 61 =
      rlDenied.get_remaining_requests "k" 61 :=
  check_limit_denied_consumes_no_quota rlDenied "k" 61 (by decide)

end TgApi

namespace TgApi

/-! ### `StateMachine` (src/telegram_api/utils/__init__.py)

State: `states : Dict[str, Dict[str, str]]` (state name ↦ trigger ↦ next
state) and `current_states : Dict[str, str]` (conversation key ↦ current
state name), both modelled as functions into `Option`.  Python truthiness on
an `Optional[str]` (`if not current_state`, `if next_state`) is false for
both `None` and the empty string, captured by `pyTruthy`. -/

structure StateMachine where
  states : String → Option (String → Option String)
  current_states : String → Option String

/-- Truthiness of a Python `Optional[str]`: `None` and `""` are falsy. -/
def pyTruthy : Option String → Bool
  | none => false
  | some s => s ≠ ""

/-- Embeds `StateMachine.add_state`: `self.states[state_name] = transitions`. -/
def StateMachine.add_state (m : StateMachine) (state_name : String)
    (transitions : String → Option String) : StateMachine :=
  { m with states := fun s => if s = state_name then some transitions else m.states s }

/-- Embeds `StateMachine.set_state`: record the state when it is a key of
`self.states`, otherwise `raise ValueError(...)`. -/
def StateMachine.set_state (m : StateMachine) (key state_name : String) :
    Except String StateMachine :=
  match m.states state_name with
  | some _ =>
      .ok { m with
        current_states := fun k => if k = key then some state_name else m.current_states k }
  | none => .error ("Unknown state: " ++ state_name)

/-- Embeds `StateMachine.get_state`: `self.current_states.get(key)`. -/
def StateMachine.get_state (m : StateMachine) (key : String) : Option String :=
  m.current_states key

/-- Embeds `StateMachine.transition`.  `if not current_state: return False`;
`transitions = self.states.get(current_state, {})`;
`next_state = transitions.get(trigger)`; `if next_state: self.set_state(key,
next_state); return True`; `return False`. -/
def StateMachine.transition (m : StateMachine) (key trigger : String) :
    Except String (StateMachine × Bool) :=
  let current_state := m.get_state key
  if pyTruthy current_state = false then
    .ok (m, false)
  else
    let transitions := (m.states (current_state.getD "")).getD (fun _ => none)
    let next_state := transitions trigger
    if pyTruthy next_state then
      (m.set_state key (next_state.getD "")).map (fun m2 => (m2, true))
    else
      .ok (m, false)

/-- Embeds `StateMachine.reset`: `self.current_states.pop(key, None)`. -/
def StateMachine.reset (m : StateMachine) (key : String) : StateMachine :=
  { m with current_states := fun k => if k = key then none else m.current_states k }

/-- The invariant of C9: every recorded current state is a key of
`self.states`, i.e. was previously added via `add_state`. -/
def StateMachine.Inv (m : StateMachine) : Prop :=
  ∀ k s, m.current_states k = some s → (m.states s).isSome

/-- Machine whose state `"a"` maps trigger `"go"` to the never-added state
`"b"` (for the C6 counterexample). -/
def smUnknownTarget : StateMachine :=
  { states := fun s =>
      if s = "a" then some (fun tr => if tr = "go" then some "b" else none) else none
    current_states := fun k => if k = "k" then some "a" else none }

/-- Machine whose state `"a"` maps trigger `"go"` to the empty string, which
is not an added state (for the C9 counterexample). -/
def smEmptyTarget : StateMachine :=
  { states := fun s =>
      if s = "a" then some (fun tr => if tr = "go" then some "" else none) else none
    current_states := fun k => if k = "k" then some "a" else none }

/-- Machine with states `"a"` (with `"go" ↦ "b"`) and `"b"` added, current
state `"a"` for key `"k"` (for the C6 witness). -/
def smTwoStates : StateMachine :=
  { states := fun s =>
      if s = "a" then some (fun tr => if tr = "go" then some "b" else none)
      else if s = "b" then some (fun _ => none)
      else none
    current_states := fun k => if k = "k" then some "a" else none }

/-- Machine with one added state and no current states (for the C9 witness). -/
def smIdle : StateMachine :=
  { states := fun s => if s = "a" then some (fun _ => none) else none
    current_states := fun _ => none }

end TgApi

namespace TgApi

/-- `set_state` on an unknown state name raises `ValueError` (embedded as
`Except.error`) instead of recording it. -/
lemma set_state_unknown_error (m : StateMachine) (key state_name : String)
    (h : m.states state_name = none) :
    m.set_state key state_name = .error ("Unknown state: " ++ state_name) := by
  simp [StateMachine.set_state, h]

/-- `add_state` preserves the C9 invariant (it only grows `states`). -/
lemma add_state_inv (m : StateMachine) (state_name : String)
    (transitions : String → Option String) (hI : m.Inv) :
    (m.add_state state_name transitions).Inv := by
  intro k s hks
  simp only [StateMachine.add_state] at hks ⊢
  by_cases hs : s = state_name
  · simp [hs]
  · simpa [hs] using hI k s hks

/-- A successful `set_state` preserves the C9 invariant: it only records
names that are keys of `states`. -/
lemma set_state_ok_inv (m m2 : StateMachine) (key state_name : String)
    (h : m.set_state key state_name = .ok m2) (hI : m.Inv) : m2.Inv := by
  cases hst : m.states state_name with
  | none => simp [StateMachine.set_state, hst] at h
  | some tbl =>
      simp only [StateMachine.set_state, hst, Except.ok.injEq] at h
      subst h
      intro k s hks
      by_cases hk : k = key
      · subst hk
        simp at hks
        subst hks
        simp [hst]
      · simp only [hk, if_neg hk] at hks
        exact hI k s hks

/-- `reset` preserves the C9 invariant (it only removes a current state). -/
lemma reset_inv (m : StateMachine) (key : String) (hI : m.Inv) : (m.reset key).Inv := by
  intro k s hks
  simp only [StateMachine.reset] at hks
  by_cases hk : k = key
  · simp [hk] at hks
  · simp only [if_neg hk] at hks
    exact hI k s hks

/-- A non-raising `transition` preserves the C9 invariant. -/
lemma transition_ok_inv (m m2 : StateMachine) (key trigger : String) (b : Bool)
    (h : m.transition key trigger = .ok (m2, b)) (hI : m.Inv) : m2.Inv := by
  simp only [StateMachine.transition] at h
  by_cases h1 : pyTruthy (m.get_state key) = false
  · simp only [h1, if_pos rfl, Except.ok.injEq, Prod.mk.injEq] at h
    obtain ⟨rfl, -⟩ := h
    exact hI
  · simp only [h1, if_neg h1] at h
    by_cases h2 : pyTruthy ((((m.states ((m.get_state key).getD "")).getD (fun _ => none))) trigger)
    · simp only [h2, if_pos rfl] at h
      cases hset : m.set_state key
          (((((m.states ((m.get_state key).getD "")).getD (fun _ => none))) trigger).getD "") with
      | error e => simp [hset, Except.map] at h
      | ok mset =>
          simp only [hset, Except.map, Except.ok.injEq, Prod.mk.injEq] at h
          obtain ⟨rfl, -⟩ := h
          exact set_state_ok_inv m _ _ _ hset hI
    · simp only [h2, if_neg h2, Except.ok.injEq, Prod.mk.injEq] at h
      obtain ⟨rfl, -⟩ := h
      exact hI

/-- `transition` raises `ValueError` when the trigger maps the current state
to a nonempty target that was never added. -/
lemma transition_unknown_nonempty_error (m : StateMachine) (key trigger cur next : String)
    (hcur : m.get_state key = some cur) (hne : cur ≠ "")
    (hlook : ((m.states cur).getD (fun _ => none)) trigger = some next) (hnz : next ≠ "")
    (hnone : m.states next = none) :
    m.transition key trigger = .error ("Unknown state: " ++ next) := by
  simp [StateMachine.transition, hcur, pyTruthy, hne, hlook, hnz,
    StateMachine.set_state, hnone, Except.map]

/-- C6, counterexample.  In `smUnknownTarget`, key `"k"` has current state
`"a"` whose transition table defines trigger `"go"` (mapping it to `"b"`),
so the claim says `transition("k", "go")` returns `True` and sets the state
to `"b"`; the code instead raises `ValueError` from the inner `set_state`,
because `"b"` was never added. -/
theorem transition_defined_trigger_raises_cex :
    smUnknownTarget.get_state "k" = some "a" ∧
    (((smUnknownTarget.states "a").getD (fun _ => none)) "go" = some "b") ∧
    smUnknownTarget.transition "k" "go" = .error ("Unknown state: " ++ "b") :=
  ⟨rfl, rfl, rfl⟩

/-- C6, amended.  `transition(key, trigger)` returns `False` and leaves the
key's state unchanged when the key has no current state, an empty-string
current state, or the current state's table maps `trigger` to nothing or to
the empty string (Python truthiness); when the table maps `trigger` to a
nonempty target, `transition` returns `True` and sets the key's state to the
target if the target was added via `add_state`, and raises `ValueError`
(leaving the state unchanged) if it was not. -/
theorem transition_table_spec (m : StateMachine) (key trigger : String) :
    (m.get_state key = none → m.transition key trigger = .ok (m, false)) ∧
    (m.get_state key = some "" → m.transition key trigger = .ok (m, false)) ∧
    (∀ cur, m.get_state key = some cur → cur ≠ "" →
      (((m.states cur).getD (fun _ => none)) trigger = none ∨
        ((m.states cur).getD (fun _ => none)) trigger = some "") →
      m.transition key trigger = .ok (m, false)) ∧
    (∀ cur next, m.get_state key = some cur → cur ≠ "" →
      ((m.states cur).getD (fun _ => none)) trigger = some next → next ≠ "" →
      ((m.states next).isSome →
        m.transition key trigger =
          .ok ({ m with
            current_states := fun k => if k = key then some next else m.current_states k },
            true)) ∧
      (m.states next = none →
        m.transition key trigger = .error ("Unknown state: " ++ next))) := by
  refine ⟨?_, ?_, ?_, ?_⟩
  · intro hcur
    simp [StateMachine.transition, hcur, pyTruthy]
  · intro hcur
    simp [StateMachine.transition, hcur, pyTruthy]
  · rintro cur hcur hne (hlook | hlook) <;>
      simp [StateMachine.transition, hcur, pyTruthy, hne, hlook]
  · intro cur next hcur hne hlook hnext
    constructor
    · intro hsome
      obtain ⟨tbl, htbl⟩ := Option.isSome_iff_exists.mp hsome
      simp [StateMachine.transition, hcur, pyTruthy, hne, hlook, hnext,
        StateMachine.set_state, htbl, Except.map]
    · intro hnone
      simp [StateMachine.transition, hcur, pyTruthy, hne, hlook, hnext,
        StateMachine.set_state, hnone, Except.map]

/-- Witness for C6: in `smTwoStates` (states `"a"` and `"b"` both added,
`"a" --go--> "b"`, key `"k"` in `"a"`), `transition("k", "go")` succeeds and
moves `"k"` to `"b"`. -/
theorem transition_table_spec_witness :
    smTwoStates.transition "k" "go" =
      .ok ({ smTwoStates with
        current_states := fun k => if k = "k" then some "b" else smTwoStates.current_states k },
        true) :=
  ((transition_table_spec smTwoStates "k" "go").2.2.2 "a" "b" rfl (by decide) rfl
    (by decide)).1 rfl

/-- C9, counterexample.  In `smEmptyTarget`, the current state `"a"` of key
`"k"` maps trigger `"go"` to the empty string, a state name that was never
added; the claim says `transition` raises `ValueError`, but the code treats
the empty string as falsy and returns `False` without raising. -/
theorem transition_empty_target_no_error_cex :
    (((smEmptyTarget.states "a").getD (fun _ => none)) "go" = some "") ∧
    smEmptyTarget.states "" = none ∧
    smEmptyTarget.get_state "k" = some "a" ∧
    smEmptyTarget.transition "k" "go" = .ok (smEmptyTarget, false) :=
  ⟨rfl, rfl, rfl, rfl⟩

/-- C9, amended.  `set_state` raises `ValueError` instead of recording an
unknown state name; every `StateMachine` operation (`add_state`, `set_state`,
`reset`, `transition`) preserves the invariant that each key's current state
was previously added via `add_state`; and `transition(key, trigger)` raises
`ValueError` (leaving the key's state unchanged) when the current state's
table maps `trigger` to a *nonempty* target state name that was never added —
when the target is the empty string, `transition` instead returns `False`
without raising. -/
theorem state_machine_states_validated :
    (∀ (m : StateMachine) (key state_name : String), m.states state_name = none →
      m.set_state key state_name = .error ("Unknown state: " ++ state_name)) ∧
    (∀ (m : StateMachine) (state_name : String) (transitions : String → Option String),
      m.Inv → (m.add_state state_name transitions).Inv) ∧
    (∀ (m m2 : StateMachine) (key state_name : String),
      m.set_state key state_name = .ok m2 → m.Inv → m2.Inv) ∧
    (∀ (m : StateMachine) (key : String), m.Inv → (m.reset key).Inv) ∧
    (∀ (m m2 : StateMachine) (key trigger : String) (b : Bool),
      m.transition key trigger = .ok (m2, b) → m.Inv → m2.Inv) ∧
    (∀ (m : StateMachine) (key trigger cur next : String),
      m.get_state key = some cur → cur ≠ "" →
      ((m.states cur).getD (fun _ => none)) trigger = some next → next ≠ "" →
      m.states next = none →
      m.transition key trigger = .error ("Unknown state: " ++ next)) :=
  ⟨set_state_unknown_error, add_state_inv,
   fun m m2 key state_name h hI => set_state_ok_inv m m2 key state_name h hI,
   reset_inv,
   fun m m2 key trigger b h hI => transition_ok_inv m m2 key trigger b h hI,
   transition_unknown_nonempty_error⟩

/-- Witness for C9 at concrete machines: `set_state` on the never-added name
`"zzz"` errors; `add_state` preserves the invariant on `smIdle`; the
never-added nonempty target `"b"` makes `transition` error. -/
theorem state_machine_states_validated_witness :
    smIdle.set_state "k" "zzz" = .error ("Unknown state: " ++ "zzz") ∧
    (smIdle.add_state "c" (fun _ => none)).Inv ∧
    smUnknownTarget.transition "k" "go" = .error ("Unknown state: " ++ "b") :=
  ⟨state_machine_states_validated.1 smIdle "k" "zzz" rfl,
   state_machine_states_validated.2.1 smIdle "c" (fun _ => none)
     (fun _ _ h => Option.noConfusion h),
   state_machine_states_validated.2.2.2.2.2 smUnknownTarget "k" "go" "a" "b" rfl
     (by decide) rfl (by decide) rfl⟩

end TgApi

namespace TgApi

/-! ### `UpdateProcessor` (src/telegram_api/core.py) and
`TelegramUpdate.from_telegram_update` (src/telegram_api/models/telegram_models.py)

An incoming `telegram.Update` is modelled by its 14 optional payload fields:
the four message-like fields (`message`, `edited_message`, `channel_post`,
`edited_channel_post`) carry an abstract `telegram.Message` payload `μ`
(`Option μ`, `none` = absent), the other ten are passed through untouched by
the conversion, so only their presence (Python truthiness) matters (`Bool`).

`process_update` first runs `TelegramUpdate.from_telegram_update(update)`
inside its outer `try`, whose `except Exception: return False` catches any
exception from the conversion.  `from_telegram_update` converts each present
message-like field with `TelegramMessage.from_telegram_message`, which can
raise (e.g. `datetime.fromtimestamp(message.date)` raises `TypeError` when
the wrapped library delivers `message.date` as a `datetime`, as
python-telegram-bot v20 does), and copies the remaining fields with
`getattr`, which cannot raise; `update.update_id` is a plain attribute read
that cannot raise and is not modelled.  The per-message conversion is the
abstract parameter `convMsg : μ → Except String τ`.

The handler registry `handlers : Dict[str, List[Callable]]` is modelled as
`String → Option (List α)`, `α` being an abstract handler type; the dict
literal in `__init__` assigns an empty list to each of the 15 known keys.
A handler call `await handler(telegram_update)` is modelled by an abstract
effect `exec : α → Except String Unit` (`error` = the handler raised); the
dispatch logic never inspects the converted value beyond its existence. -/

structure Update (μ : Type) where
  message : Option μ
  edited_message : Option μ
  channel_post : Option μ
  edited_channel_post : Option μ
  callback_query : Bool
  inline_query : Bool
  chosen_inline_result : Bool
  shipping_query : Bool
  pre_checkout_query : Bool
  poll : Bool
  poll_answer : Bool
  my_chat_member : Bool
  chat_member : Bool
  chat_join_request : Bool

/-- The converted `TelegramUpdate` dataclass: the four message-like fields
hold converted payloads `τ`, the other ten are copied through. -/
structure TelegramUpdate (τ : Type) where
  message : Option τ
  edited_message : Option τ
  channel_post : Option τ
  edited_channel_post : Option τ
  callback_query : Bool
  inline_query : Bool
  chosen_inline_result : Bool
  shipping_query : Bool
  pre_checkout_query : Bool
  poll : Bool
  poll_answer : Bool
  my_chat_member : Bool
  chat_member : Bool
  chat_join_request : Bool

/-- `TelegramMessage.from_telegram_message(update.x) if update.x else None`:
convert a present payload (propagating its exception), keep `None` absent. -/
def convertOptMsg {μ τ : Type} (convMsg : μ → Except String τ) :
    Option μ → Except String (Option τ)
  | some m => (convMsg m).map some
  | none => .ok none

/-- Embeds `TelegramUpdate.from_telegram_update`: convert the four
message-like fields in source order (the first conversion that raises
propagates, as in Python's left-to-right keyword evaluation), copy the other
ten fields through. -/
def TelegramUpdate.from_telegram_update {μ τ : Type} (convMsg : μ → Except String τ)
    (u : Update μ) : Except String (TelegramUpdate τ) := do
  let message ← convertOptMsg convMsg u.message
  let edited_message ← convertOptMsg convMsg u.edited_message
  let channel_post ← convertOptMsg convMsg u.channel_post
  let edited_channel_post ← convertOptMsg convMsg u.edited_channel_post
  .ok { message := message
        edited_message := edited_message
        channel_post := channel_post
        edited_channel_post := edited_channel_post
        callback_query := u.callback_query
        inline_query := u.inline_query
        chosen_inline_result := u.chosen_inline_result
        shipping_query := u.shipping_query
        pre_checkout_query := u.pre_checkout_query
        poll := u.poll
        poll_answer := u.poll_answer
        my_chat_member := u.my_chat_member
        chat_member := u.chat_member
        chat_join_request := u.chat_join_request }

/-- The 15 keys of the handler-registry dict literal, in source order. -/
def updateTypeKeys : List String :=
  ["message", "command", "callback_query", "inline_query", "edited_message",
   "channel_post", "edited_channel_post", "chosen_inline_result", "shipping_query",
   "pre_checkout_query", "poll", "poll_answer", "my_chat_member", "chat_member",
   "chat_join_request"]

structure UpdateProcessor (α : Type) where
  handlers : String → Option (List α)

/-- The registry as built by `UpdateProcessor.__init__`: each known update
type maps to an empty handler list, every other key is absent. -/
def initUpdateProcessor (α : Type) : UpdateProcessor α :=
  { handlers := fun t => if t ∈ updateTypeKeys then some [] else none }

/-- Embeds `UpdateProcessor.register_handler`: append when the update type is
a registry key, otherwise only log a warning (no state change). -/
def UpdateProcessor.register_handler {α : Type} (p : UpdateProcessor α)
    (update_type : String) (h : α) : UpdateProcessor α :=
  match p.handlers update_type with
  | some hs =>
      { handlers := fun t => if t = update_type then some (hs ++ [h]) else p.handlers t }
  | none => p

/-- A sequence of `register_handler` calls. -/
def registerAll {α : Type} (p : UpdateProcessor α) (regs : List (String × α)) :
    UpdateProcessor α :=
  regs.foldl (fun acc r => acc.register_handler r.1 r.2) p

/-- Embeds `UpdateProcessor._get_update_type`: the if/elif chain over the
raw update's fields, in source order, falling through to `"unknown"`
(an object field is truthy exactly when present). -/
def _get_update_type {μ : Type} (u : Update μ) : String :=
  if u.message.isSome then "message"
  else if u.edited_message.isSome then "edited_message"
  else if u.channel_post.isSome then "channel_post"
  else if u.edited_channel_post.isSome then "edited_channel_post"
  else if u.callback_query then "callback_query"
  else if u.inline_query then "inline_query"
  else if u.chosen_inline_result then "chosen_inline_result"
  else if u.shipping_query then "shipping_query"
  else if u.pre_checkout_query then "pre_checkout_query"
  else if u.poll then "poll"
  else if u.poll_answer then "poll_answer"
  else if u.my_chat_member then "my_chat_member"
  else if u.chat_member then "chat_member"
  else if u.chat_join_request then "chat_join_request"
  else "unknown"

/-- The handler loop of `process_update`, returning the invocation trace:
each handler is invoked, and `except Exception: … continue` makes the loop
proceed identically whether `exec` succeeds or raises. -/
def runHandlers {α : Type} (exec : α → Except String Unit) : List α → List α
  | [] => []
  | h :: rest =>
      match exec h with
      | .ok _ => h :: runHandlers exec rest
      | .error _ => h :: runHandlers exec rest

/-- Embeds `UpdateProcessor.process_update`: convert via
`from_telegram_update` first — an exception there is caught by the outer
`except Exception` and yields `False` with no handler invoked — then derive
the type tag from the raw update, and when it is a registry key invoke the
registered handlers and return `True`, else return `False`.  The result's
second component is the invocation trace. -/
def UpdateProcessor.process_update {α μ τ : Type} (p : UpdateProcessor α)
    (convMsg : μ → Except String τ) (exec : α → Except String Unit) (u : Update μ) :
    Bool × List α :=
  match TelegramUpdate.from_telegram_update convMsg u with
  | .error _ => (false, [])
  | .ok _ =>
      let update_type := _get_update_type u
      match p.handlers update_type with
      | some hs => (true, runHandlers exec hs)
      | none => (false, [])

/-- Spec-side (C3): the fixed order in which the claim says the fields are
checked, with their tags. -/
def specUpdateTypeOrder (μ : Type) : List (String × (Update μ → Bool)) :=
  [("message", fun u => u.message.isSome),
   ("edited_message", fun u => u.edited_message.isSome),
   ("channel_post", fun u => u.channel_post.isSome),
   ("edited_channel_post", fun u => u.edited_channel_post.isSome),
   ("callback_query", Update.callback_query), ("inline_query", Update.inline_query),
   ("chosen_inline_result", Update.chosen_inline_result),
   ("shipping_query", Update.shipping_query),
   ("pre_checkout_query", Update.pre_checkout_query), ("poll", Update.poll),
   ("poll_answer", Update.poll_answer), ("my_chat_member", Update.my_chat_member),
   ("chat_member", Update.chat_member), ("chat_join_request", Update.chat_join_request)]

/-- Spec-side (C3): the tag of the first set field in the fixed order, or
`"unknown"` when none is set. -/
def specFirstSetTag {μ : Type} (u : Update μ) : String :=
  (((specUpdateTypeOrder μ).find? (fun p => p.2 u)).map Prod.fst).getD "unknown"

/-- The if/elif chain agrees with the spec's first-set-field-in-fixed-order
description. -/
lemma get_update_type_eq_spec {μ : Type} (u : Update μ) :
    _get_update_type u = specFirstSetTag u := by
  obtain ⟨m, em, cp, ecp, cq, iq, cir, sq, pcq, pl, pa, mcm, cm, cjr⟩ := u
  cases m
  case some x => rfl
  case none =>
  cases em
  case some x => rfl
  case none =>
  cases cp
  case some x => rfl
  case none =>
  cases ecp
  case some x => rfl
  case none =>
  cases cq
  case true => rfl
  case false =>
  cases iq
  case true => rfl
  case false =>
  cases cir
  case true => rfl
  case false =>
  cases sq
  case true => rfl
  case false =>
  cases pcq
  case true => rfl
  case false =>
  cases pl
  case true => rfl
  case false =>
  cases pa
  case true => rfl
  case false =>
  cases mcm
  case true => rfl
  case false =>
  cases cm
  case true => rfl
  case false =>
  cases cjr
  case true => rfl
  case false => rfl

/-- The conversion cannot raise when no message-like field is present: the
remaining ten fields are only read with `getattr`. -/
lemma from_telegram_update_ok_of_no_message {μ τ : Type} (convMsg : μ → Except String τ)
    (u : Update μ) (h1 : u.message = none) (h2 : u.edited_message = none)
    (h3 : u.channel_post = none) (h4 : u.edited_channel_post = none) :
    ∃ t, TelegramUpdate.from_telegram_update convMsg u = .ok t := by
  simp only [TelegramUpdate.from_telegram_update, convertOptMsg, h1, h2, h3, h4]
  exact ⟨_, rfl⟩

/-- `register_handler` never adds or removes registry keys. -/
lemma register_handler_isSome {α : Type} (p : UpdateProcessor α) (t s : String) (h : α) :
    ((p.register_handler t h).handlers s).isSome = (p.handlers s).isSome := by
  unfold UpdateProcessor.register_handler
  cases hp : p.handlers t with
  | none => rfl
  | some hs =>
      by_cases hst : s = t
      · subst hst
        simp [hp]
      · simp [hst]

/-- Registry keys are invariant under any sequence of registrations. -/
lemma registerAll_isSome {α : Type} (regs : List (String × α)) (p : UpdateProcessor α)
    (s : String) :
    ((registerAll p regs).handlers s).isSome = (p.handlers s).isSome := by
  induction regs generalizing p with
  | nil => rfl
  | cons r rest ih =>
      show ((registerAll (p.register_handler r.1 r.2) rest).handlers s).isSome = _
      rw [ih, register_handler_isSome]

/-- After a sequence of registrations, a key holds exactly the handlers
registered under it, in registration order. -/
lemma registerAll_content {α : Type} (regs : List (String × α)) (p : UpdateProcessor α)
    (t : String) (l : List α) (hp : p.handlers t = some l) :
    (registerAll p regs).handlers t =
      some (l ++ (regs.filter (fun r => r.1 = t)).map Prod.snd) := by
  induction regs generalizing p l with
  | nil => simpa [registerAll] using hp
  | cons r rest ih =>
      show (registerAll (p.register_handler r.1 r.2) rest).handlers t = _
      by_cases hr : r.1 = t
      · subst hr
        have hreg : (p.register_handler r.1 r.2).handlers r.1 = some (l ++ [r.2]) := by
          simp [UpdateProcessor.register_handler, hp]
        rw [ih _ _ hreg]
        simp
      · have hreg : (p.register_handler r.1 r.2).handlers t = some l := by
          unfold UpdateProcessor.register_handler
          cases hpr : p.handlers r.1 with
          | none => exact hp
          | some hs =>
              simp only []
              rw [if_neg (fun hc => hr hc.symm)]
              exact hp
        rw [ih _ _ hreg]
        simp [hr]

/-- Every handler in the list is invoked, in order, whether or not `exec`
raises on some of them. -/
lemma runHandlers_all {α : Type} (exec : α → Except String Unit) (hs : List α) :
    runHandlers exec hs = hs := by
  induction hs with
  | nil => rfl
  | cons h rest ih =>
      unfold runHandlers
      cases exec h <;> simp [ih]

/-- Models `datetime.fromtimestamp(message.date)` raising `TypeError` on the
`datetime`-valued `message.date` that python-telegram-bot v20 delivers
(src/telegram_api/models/telegram_models.py, `from_telegram_message`). -/
def convMsgTypeError : Unit → Except String Unit :=
  fun _ => .error "TypeError: an integer is required"

/-- A per-message conversion that succeeds. -/
def convMsgId : Unit → Except String Unit :=
  fun _ => .ok ()

/-- An effect under which every handler succeeds. -/
def execOk : Nat → Except String Unit :=
  fun _ => .ok ()

/-- An update carrying a `message` payload, for the C3 counterexample. -/
def uMsgConvThree : Update Unit :=
  ⟨some (), none, none, none, false, false, false,
   false, false, false, false, false, false, false⟩

/-- An update carrying a `message` payload, for the C4 counterexample. -/
def uMsgConvFour : Update Unit :=
  ⟨some (), none, none, none, false, false, false,
   false, false, false, false, false, false, false⟩

/-- An update carrying a `message` payload, for the C4 witness. -/
def uMessage : Update Unit :=
  ⟨some (), none, none, none, false, false, false,
   false, false, false, false, false, false, false⟩

/-- C3, counterexample.  A `message` update whose payload conversion raises
(the `datetime.fromtimestamp` `TypeError`): the derived tag `"message"` is a
registry key — with a handler even registered under it — yet `process_update`
returns `False`, refuting the claimed "returns True if and only if the
derived tag is one of the 15 keys". -/
theorem process_update_conversion_false_cex :
    _get_update_type uMsgConvThree = "message" ∧
    "message" ∈ updateTypeKeys ∧
    (registerAll (initUpdateProcessor Nat) [("message", 1)]).process_update
      convMsgTypeError execOk uMsgConvThree = (false, []) :=
  ⟨rfl, by decide, rfl⟩

/-- C3, amended.  Update dispatch is a type-tag switch: `_get_update_type`
returns the tag of the first set field in the claim's fixed order
(`"unknown"` when none is set), and `process_update` returns `True` iff the
`from_telegram_update` conversion succeeds *and* the derived tag is one of
the 15 registry keys — for every registration history, so also when the
tag's handler list is still empty — and `False` otherwise, in particular
when the conversion raises and the outer `except` returns `False`. -/
theorem process_update_type_switch (α μ τ : Type) (convMsg : μ → Except String τ)
    (exec : α → Except String Unit) (regs : List (String × α)) (u : Update μ) :
    _get_update_type u = specFirstSetTag u ∧
    (((registerAll (initUpdateProcessor α) regs).process_update convMsg exec u).1 = true ↔
      ((∃ t, TelegramUpdate.from_telegram_update convMsg u = .ok t) ∧
        _get_update_type u ∈ updateTypeKeys)) := by
  refine ⟨get_update_type_eq_spec u, ?_⟩
  cases hconv : TelegramUpdate.from_telegram_update convMsg u with
  | error e =>
      simp [UpdateProcessor.process_update, hconv]
  | ok t0 =>
      have hdom := registerAll_isSome regs (initUpdateProcessor α) (_get_update_type u)
      unfold UpdateProcessor.process_update
      rw [hconv]
      cases hh : (registerAll (initUpdateProcessor α) regs).handlers (_get_update_type u) with
      | some hs =>
          rw [hh] at hdom
          simp only [initUpdateProcessor, Option.isSome_some] at hdom
          by_cases hm : _get_update_type u ∈ updateTypeKeys
          · simp [hh, hm]
          · rw [if_neg hm] at hdom
            simp at hdom
      | none =>
          rw [hh] at hdom
          simp only [initUpdateProcessor, Option.isSome_none] at hdom
          by_cases hm : _get_update_type u ∈ updateTypeKeys
          · rw [if_pos hm] at hdom
            simp at hdom
          · simp [hh, hm]

/-- C4, counterexample.  Two handlers are registered under `"message"` and a
`message` update matches that registered tag, but its payload conversion
raises, so `process_update` returns `False` and invokes no handler at all —
refuting the claimed "invokes every handler registered for that tag exactly
once … and process_update still returns True". -/
theorem process_update_no_handlers_on_conversion_error_cex :
    _get_update_type uMsgConvFour = "message" ∧
    "message" ∈ updateTypeKeys ∧
    (registerAll (initUpdateProcessor Nat) [("message", 1), ("message", 2)]).process_update
      convMsgTypeError execOk uMsgConvFour = (false, []) :=
  ⟨rfl, by decide, rfl⟩

/-- C4, amended.  When the `from_telegram_update` conversion succeeds and the
derived tag is a registry key, `process_update` returns `True` and the
invocation trace is exactly the handlers registered under that tag via
`register_handler`, in registration order — for an arbitrary effect `exec`,
so a handler that raises (is mapped to `error`) does not prevent the
remaining handlers from being invoked.  When the conversion raises, the
outer `except` catches it and `process_update` returns `False` with no
handler invoked. -/
theorem process_update_runs_all_handlers (α μ τ : Type) (convMsg : μ → Except String τ)
    (exec : α → Except String Unit) (regs : List (String × α)) (u : Update μ) :
    (∀ t, TelegramUpdate.from_telegram_update convMsg u = .ok t →
      _get_update_type u ∈ updateTypeKeys →
      ((registerAll (initUpdateProcessor α) regs).process_update convMsg exec u).1 = true ∧
      ((registerAll (initUpdateProcessor α) regs).process_update convMsg exec u).2 =
        (regs.filter (fun r => r.1 = _get_update_type u)).map Prod.snd) ∧
    (∀ e, TelegramUpdate.from_telegram_update convMsg u = .error e →
      (registerAll (initUpdateProcessor α) regs).process_update convMsg exec u =
        (false, [])) := by
  constructor
  · intro t hconv hmem
    have hinit : (initUpdateProcessor α).handlers (_get_update_type u) = some [] := by
      simp [initUpdateProcessor, hmem]
    have hc := registerAll_content regs (initUpdateProcessor α) (_get_update_type u) [] hinit
    simp only [List.nil_append] at hc
    constructor
    · simp [UpdateProcessor.process_update, hconv, hc]
    · simp [UpdateProcessor.process_update, hconv, hc, runHandlers_all]
  · intro e hconv
    simp [UpdateProcessor.process_update, hconv]

/-- Effect for the C4 witness: handler `1` raises, handler `2` succeeds. -/
def execBoom : Nat → Except String Unit :=
  fun h => if h = 1 then .error "boom" else .ok ()

/-- Witness for C4: the payload conversion succeeds, two handlers are
registered for `"message"`, the first of which raises; both are invoked and
`process_update` returns `True`. -/
theorem process_update_runs_all_handlers_witness :
    ((registerAll (initUpdateProcessor Nat) [("message", 1), ("message", 2)]).process_update
      convMsgId execBoom uMessage).1 = true ∧
    ((registerAll (initUpdateProcessor Nat) [("message", 1), ("message", 2)]).process_update
      convMsgId execBoom uMessage).2 =
      ([("message", 1), ("message", 2)].filter
        (fun r => r.1 = _get_update_type uMessage)).map Prod.snd :=
  (process_update_runs_all_handlers Nat Unit Unit convMsgId execBoom
    [("message", 1), ("message", 2)] uMessage).1 _ rfl (by decide)

end TgApi

namespace TgApi

/-! ### `HandlerFactory` (src/telegram_api/handlers/__init__.py)

A handler instance is modelled by its class (the constructors of
`BaseHandler`); the factory's registered-handlers dict
`handlers : Dict[str, BaseHandler]` becomes `String → Option BaseHandler`.
`create_handler` returns the created instance together with the factory,
which it never modifies (`raise ValueError` becomes `Except.error`). -/

inductive BaseHandler
  | MessageHandler
  | CommandHandler
  | CallbackHandler
  | InlineHandler
  | MediaHandler
  | ChatMemberHandler
  | PollHandler
deriving DecidableEq

structure HandlerFactory where
  handlers : String → Option BaseHandler

/-- Embeds `HandlerFactory.create_handler`: the if/elif chain over the seven
known handler-type strings, else `raise ValueError(...)`.  The factory is
returned unchanged in every successful branch, mirroring that the method
never assigns to `self.handlers`. -/
def HandlerFactory.create_handler (f : HandlerFactory) (handler_type : String) :
    Except String (BaseHandler × HandlerFactory) :=
  if handler_type = "message" then .ok (.MessageHandler, f)
  else if handler_type = "command" then .ok (.CommandHandler, f)
  else if handler_type = "callback" then .ok (.CallbackHandler, f)
  else if handler_type = "inline" then .ok (.InlineHandler, f)
  else if handler_type = "media" then .ok (.MediaHandler, f)
  else if handler_type = "chat_member" then .ok (.ChatMemberHandler, f)
  else if handler_type = "poll" then .ok (.PollHandler, f)
  else .error ("Unknown handler type: " ++ handler_type)

/-- Embeds `HandlerFactory.register_handler`:
`self.handlers[handler_type] = handler`. -/
def HandlerFactory.register_handler (f : HandlerFactory) (handler_type : String)
    (handler : BaseHandler) : HandlerFactory :=
  { handlers := fun t => if t = handler_type then some handler else f.handlers t }

/-- The `handler_types` list of `create_all_handlers`, in source order. -/
def handlerTypesList : List String :=
  ["message", "command", "callback", "inline", "media", "chat_member", "poll"]

/-- Embeds `HandlerFactory.create_all_handlers`: for each known type, create
and register a handler; the `try/except` keeps going if creation fails. -/
def HandlerFactory.create_all_handlers (f : HandlerFactory) : HandlerFactory :=
  handlerTypesList.foldl
    (fun acc handler_type =>
      match acc.create_handler handler_type with
      | .ok (h, acc2) => acc2.register_handler handler_type h
      | .error _ => acc)
    f

/-- C7.  `create_handler` maps each of the seven known handler-type strings
to an instance of the corresponding handler class, returning the factory's
registered-handlers mapping unchanged, and raises `ValueError` for every
other string; `create_all_handlers` registers exactly one handler of the
corresponding class under each of the seven keys and touches no other key. -/
theorem handler_factory_spec :
    (∀ f : HandlerFactory,
      f.create_handler "message" = .ok (.MessageHandler, f) ∧
      f.create_handler "command" = .ok (.CommandHandler, f) ∧
      f.create_handler "callback" = .ok (.CallbackHandler, f) ∧
      f.create_handler "inline" = .ok (.InlineHandler, f) ∧
      f.create_handler "media" = .ok (.MediaHandler, f) ∧
      f.create_handler "chat_member" = .ok (.ChatMemberHandler, f) ∧
      f.create_handler "poll" = .ok (.PollHandler, f)) ∧
    (∀ (f : HandlerFactory) (t : String), t ∉ handlerTypesList →
      f.create_handler t = .error ("Unknown handler type: " ++ t)) ∧
    (∀ f : HandlerFactory,
      f.create_all_handlers.handlers "message" = some .MessageHandler ∧
      f.create_all_handlers.handlers "command" = some .CommandHandler ∧
      f.create_all_handlers.handlers "callback" = some .CallbackHandler ∧
      f.create_all_handlers.handlers "inline" = some .InlineHandler ∧
      f.create_all_handlers.handlers "media" = some .MediaHandler ∧
      f.create_all_handlers.handlers "chat_member" = some .ChatMemberHandler ∧
      f.create_all_handlers.handlers "poll" = some .PollHandler) ∧
    (∀ (f : HandlerFactory) (t : String), t ∉ handlerTypesList →
      f.create_all_handlers.handlers t = f.handlers t) := by
  refine ⟨?_, ?_, ?_, ?_⟩
  · intro f
    exact ⟨rfl, rfl, rfl, rfl, rfl, rfl, rfl⟩
  · intro f t ht
    have h1 : t ≠ "message" := by rintro rfl; exact ht (by decide)
    have h2 : t ≠ "command" := by rintro rfl; exact ht (by decide)
    have h3 : t ≠ "callback" := by rintro rfl; exact ht (by decide)
    have h4 : t ≠ "inline" := by rintro rfl; exact ht (by decide)
    have h5 : t ≠ "media" := by rintro rfl; exact ht (by decide)
    have h6 : t ≠ "chat_member" := by rintro rfl; exact ht (by decide)
    have h7 : t ≠ "poll" := by rintro rfl; exact ht (by decide)
    simp [HandlerFactory.create_handler, h1, h2, h3, h4, h5, h6, h7]
  · intro f
    exact ⟨rfl, rfl, rfl, rfl, rfl, rfl, rfl⟩
  · intro f t ht
    have h1 : t ≠ "message" := by rintro rfl; exact ht (by decide)
    have h2 : t ≠ "command" := by rintro rfl; exact ht (by decide)
    have h3 : t ≠ "callback" := by rintro rfl; exact ht (by decide)
    have h4 : t ≠ "inline" := by rintro rfl; exact ht (by decide)
    have h5 : t ≠ "media" := by rintro rfl; exact ht (by decide)
    have h6 : t ≠ "chat_member" := by rintro rfl; exact ht (by decide)
    have h7 : t ≠ "poll" := by rintro rfl; exact ht (by decide)
    simp [HandlerFactory.create_all_handlers, handlerTypesList, HandlerFactory.create_handler,
      HandlerFactory.register_handler, h1, h2, h3, h4, h5, h6, h7]

/-- A factory whose registered-handlers dict is empty. -/
def hfEmpty : HandlerFactory := { handlers := fun _ => none }

/-- Witness for C7 at the unknown type string `"bogus"`: `create_handler`
errors and `create_all_handlers` leaves the key untouched. -/
theorem handler_factory_spec_witness :
    hfEmpty.create_handler "bogus" = .error ("Unknown handler type: " ++ "bogus") ∧
    hfEmpty.create_all_handlers.handlers "bogus" = hfEmpty.handlers "bogus" :=
  ⟨handler_factory_spec.2.1 hfEmpty "bogus" (by decide),
   handler_factory_spec.2.2.2 hfEmpty "bogus" (by decide)⟩

end TgApi

namespace TgApi

/-! ### `MessageFormatter.truncate_text` (src/telegram_api/utils/__init__.py)

Python strings are modelled as `List Char` (sequences of code points, which
is what `len` and slicing act on); `max_length : int` is modelled as `ℤ`.
`pySliceTo` embeds the Python slice `s[:k]`, including its negative-index
semantics. -/

/-- Python `s[:k]`: for `k ≥ 0` the first `k` items; for `k < 0` all but the
last `|k|` items (clamped at the empty list). -/
def pySliceTo (s : List Char) (k : Int) : List Char :=
  if 0 ≤ k then s.take k.toNat
  else s.take ((s.length : Int) + k).toNat

/-- Embeds `MessageFormatter.truncate_text`: return `text` unchanged when it
fits, else `text[: max_length - len(suffix)] + suffix`. -/
def truncate_text (text : List Char) (max_length : Int) (sfx : List Char) : List Char :=
  if (text.length : Int) ≤ max_length then text
  else pySliceTo text (max_length - (sfx.length : Int)) ++ sfx

/-- C10, counterexample.  With `text = "hello"`, `max_length = 2` and the
default suffix `"..."`, the slice index `2 - 3 = -1` is negative, so Python
keeps all but the last character and the result `"hell..."` has length 7,
exceeding `max_length = 2` — the claim promised length at most
`max_length` for every `max_length`. -/
theorem truncate_text_overflow_cex :
    truncate_text ['h', 'e', 'l', 'l', 'o'] 2 ['.', '.', '.'] =
      ['h', 'e', 'l', 'l', '.', '.', '.'] ∧
    ¬ (((['h', 'e', 'l', 'l', '.', '.', '.'] : List Char).length : Int) ≤ 2) := by
  decide

/-- C10, amended.  `truncate_text(text, max_length, suffix)` returns `text`
unchanged when `len(text) ≤ max_length`; when `len(text) > max_length` *and*
`len(suffix) ≤ max_length`, it returns a string of length exactly
`max_length` (hence at most `max_length`) consisting of a prefix of `text`
followed by `suffix`.  When `len(suffix) > max_length` the result is still a
prefix of `text` followed by `suffix` but can be longer than `max_length`. -/
theorem truncate_text_spec (text : List Char) (max_length : Int) (sfx : List Char) :
    ((text.length : Int) ≤ max_length → truncate_text text max_length sfx = text) ∧
    (max_length < (text.length : Int) → (sfx.length : Int) ≤ max_length →
      ((truncate_text text max_length sfx).length : Int) = max_length ∧
      ∃ n, truncate_text text max_length sfx = text.take n ++ sfx) := by
  constructor
  · intro h
    simp [truncate_text, h]
  · intro h1 h2
    have hnot : ¬ ((text.length : Int) ≤ max_length) := by omega
    have hk : (0 : Int) ≤ max_length - (sfx.length : Int) := by omega
    have hkn : (((max_length - (sfx.length : Int)).toNat : Int)) =
        max_length - (sfx.length : Int) := Int.toNat_of_nonneg hk
    have hlt : (max_length - (sfx.length : Int)).toNat ≤ text.length := by omega
    constructor
    · unfold truncate_text pySliceTo
      rw [if_neg hnot, if_pos hk, List.length_append, List.length_take,
        Nat.min_eq_left hlt]
      omega
    · refine ⟨(max_length - (sfx.length : Int)).toNat, ?_⟩
      unfold truncate_text pySliceTo
      rw [if_neg hnot, if_pos hk]

/-- Witness for C10: `"hi"` fits within 10 and is returned unchanged;
`"hello"` truncated to 4 with suffix `"."` yields a string of length 4. -/
theorem truncate_text_spec_witness :
    truncate_text ['h', 'i'] 10 ['.'] = ['h', 'i'] ∧
    ((truncate_text ['h', 'e', 'l', 'l', 'o'] 4 ['.']).length : Int) = 4 :=
  ⟨(truncate_text_spec ['h', 'i'] 10 ['.']).1 (by decide),
   ((truncate_text_spec ['h', 'e', 'l', 'l', 'o'] 4 ['.']).2 (by decide) (by decide)).1⟩

end TgApi

namespace TgApi

/-! ### `UserService.get_or_create_user` / `ChatService.get_or_create_chat`
(src/telegram_api/services/database_service.py) and the models
(src/telegram_api/models/database_models.py)

A table is modelled as a list of rows.  `select ... where telegram_id == id`
with `scalar_one_or_none()` is modelled by matching on
`db.filter (fun r => r.telegram_id == id)`: no row found means insert, one
row means update in place, and more than one row makes
`scalar_one_or_none()` raise `MultipleResultsFound` (the `none` result).
`datetime.utcnow()` is the explicit parameter `now`.  Only the columns the
two methods read or write are modelled; the `unique=True` constraint on
`telegram_id` is the predicate `UniqueBy`. -/

/-- At most one row per key value: the `unique=True` constraint on
`telegram_id`. -/
def UniqueBy {α : Type} (key : α → Int) (db : List α) : Prop :=
  ∀ j : Int, db.countP (fun r => key r == j) ≤ 1

/-- Appending a fresh row for a key that had no row keeps keys unique. -/
lemma upsertInsertUnique {α : Type} (key : α → Int) (nr : α) (db : List α) (i : Int)
    (hnew : key nr = i) (hU : UniqueBy key db)
    (hf : db.filter (fun r => key r == i) = []) :
    UniqueBy key (db ++ [nr]) := by
  intro j
  rw [List.countP_append]
  have hdb0 : db.countP (fun r => key r == i) = 0 := by
    rw [List.countP_eq_length_filter, hf]
    rfl
  by_cases hj : j = i
  · subst hj
    rw [hdb0]
    simp [List.countP_cons, hnew]
  · have hij : ¬ (i = j) := fun h => hj h.symm
    have h1 : ([nr].countP (fun r => key r == j)) = 0 := by
      simp [List.countP_cons, hnew, hij]
    rw [h1]
    simpa using hU j

/-- An empty filter result means no row has the key. -/
lemma upsertNoMatch {α : Type} (key : α → Int) (db : List α) (i : Int)
    (hf : db.filter (fun r => key r == i) = []) :
    ∀ r ∈ db, key r ≠ i := by
  intro r hr hkey
  exact absurd (by simp [hkey]) (List.filter_eq_nil_iff.mp hf r hr)

/-- A key-preserving in-place update keeps keys unique. -/
lemma upsertUpdateUnique {α : Type} (key : α → Int) (upd : α → α) (db : List α) (i : Int)
    (hkeep : ∀ r, key (upd r) = key r) (hU : UniqueBy key db) :
    UniqueBy key (db.map (fun r => if key r == i then upd r else r)) := by
  intro j
  rw [List.countP_map]
  have hcong : ∀ r ∈ db,
      ((((fun r => key r == j) ∘ (fun r => if key r == i then upd r else r)) r) = true ↔
        (((fun r => key r == j) r) = true)) := by
    intro r _
    by_cases h : key r = i
    · simp [h, hkeep]
    · simp [h]
  rw [List.countP_congr hcong]
  exact hU j

/-- The head of a nonempty filter result is a row of the table with the
key. -/
lemma upsertMatchMem {α : Type} (key : α → Int) (db : List α) (i : Int) (a : α)
    (tail : List α) (hf : db.filter (fun r => key r == i) = a :: tail) :
    a ∈ db ∧ key a = i := by
  have hmem : a ∈ db.filter (fun r => key r == i) := by
    rw [hf]
    exact List.mem_cons_self a tail
  have := List.mem_filter.mp hmem
  exact ⟨this.1, by simpa using this.2⟩

/-- Under uniqueness the filter result never has two rows. -/
lemma upsertTwoImpossible {α : Type} (key : α → Int) (db : List α) (i : Int)
    (a b : α) (tail : List α) (hU : UniqueBy key db)
    (hf : db.filter (fun r => key r == i) = a :: b :: tail) : False := by
  have h2 := hU i
  rw [List.countP_eq_length_filter, hf] at h2
  simp at h2

end TgApi

namespace TgApi

/-- The fields of the incoming `TelegramUser` that the method reads. -/
structure TelegramUserIn where
  id : Int
  username : Option String
  first_name : String
  last_name : Option String
  language_code : Option String
  is_bot : Bool
  is_premium : Bool

/-- A row of the `users` table (the columns touched by the method). -/
structure UserRow where
  telegram_id : Int
  username : Option String
  first_name : String
  last_name : Option String
  language_code : Option String
  is_bot : Bool
  is_premium : Bool
  last_seen : ℚ
  updated_at : Option ℚ

/-- The update branch of `get_or_create_user`: the found row mutated field
by field (`telegram_id` and `is_bot` are not reassigned). -/
def updatedUserRow (r : UserRow) (tu : TelegramUserIn) (now : ℚ) : UserRow :=
  { r with
    username := tu.username
    first_name := tu.first_name
    last_name := tu.last_name
    language_code := tu.language_code
    is_premium := tu.is_premium
    last_seen := now
    updated_at := some now }

/-- The create branch of `get_or_create_user`: `User(telegram_id=..., ...)`. -/
def newUserRow (tu : TelegramUserIn) (now : ℚ) : UserRow :=
  { telegram_id := tu.id
    username := tu.username
    first_name := tu.first_name
    last_name := tu.last_name
    language_code := tu.language_code
    is_bot := tu.is_bot
    is_premium := tu.is_premium
    last_seen := now
    updated_at := none }

/-- Embeds `UserService.get_or_create_user` acting on the `users` table. -/
def get_or_create_user (db : List UserRow) (tu : TelegramUserIn) (now : ℚ) :
    Option (List UserRow) :=
  match db.filter (fun r => r.telegram_id == tu.id) with
  | [] => some (db ++ [newUserRow tu now])
  | [_] =>
      some (db.map (fun r => if r.telegram_id == tu.id then updatedUserRow r tu now else r))
  | _ => none

/-- The fields of the incoming `TelegramChat` that the method reads
(`type` already converted by `.value` to its string). -/
structure TelegramChatIn where
  id : Int
  type : String
  title : Option String
  username : Option String
  first_name : Option String
  last_name : Option String
  description : Option String

/-- A row of the chats table (the columns touched by the method). -/
structure ChatRow where
  telegram_id : Int
  type : String
  title : Option String
  username : Option String
  first_name : Option String
  last_name : Option String
  description : Option String
  updated_at : Option ℚ

/-- The update branch of `get_or_create_chat`. -/
def updatedChatRow (r : ChatRow) (tc : TelegramChatIn) (now : ℚ) : ChatRow :=
  { r with
    type := tc.type
    title := tc.title
    username := tc.username
    first_name := tc.first_name
    last_name := tc.last_name
    description := tc.description
    updated_at := some now }

/-- The create branch of `get_or_create_chat`. -/
def newChatRow (tc : TelegramChatIn) : ChatRow :=
  { telegram_id := tc.id
    type := tc.type
    title := tc.title
    username := tc.username
    first_name := tc.first_name
    last_name := tc.last_name
    description := tc.description
    updated_at := none }

/-- Embeds `ChatService.get_or_create_chat` acting on the chats table. -/
def get_or_create_chat (db : List ChatRow) (tc : TelegramChatIn) (now : ℚ) :
    Option (List ChatRow) :=
  match db.filter (fun r => r.telegram_id == tc.id) with
  | [] => some (db ++ [newChatRow tc])
  | [_] =>
      some (db.map (fun r => if r.telegram_id == tc.id then updatedChatRow r tc now else r))
  | _ => none

/-- C5.  Persistence of users and chats is upsert-by-external-id: on a table
with at most one row per `telegram_id`, `get_or_create_user` succeeds and
updates the existing row in place (same number of rows, rows with other ids
untouched by the key-preserving pointwise update) when a row with the same
`telegram_id` exists, inserts a new row exactly when none exists, and
preserves the at-most-one-row-per-`telegram_id` invariant; the same holds
for `get_or_create_chat`. -/
theorem get_or_create_upsert_unique :
    (∀ (db : List UserRow) (tu : TelegramUserIn) (now : ℚ),
      UniqueBy UserRow.telegram_id db →
      ∃ db2, get_or_create_user db tu now = some db2 ∧
        UniqueBy UserRow.telegram_id db2 ∧
        ((∀ r ∈ db, r.telegram_id ≠ tu.id) → db2 = db ++ [newUserRow tu now]) ∧
        ((∃ r ∈ db, r.telegram_id = tu.id) →
          db2 = db.map
            (fun r => if r.telegram_id == tu.id then updatedUserRow r tu now else r) ∧
          db2.length = db.length)) ∧
    (∀ (db : List ChatRow) (tc : TelegramChatIn) (now : ℚ),
      UniqueBy ChatRow.telegram_id db →
      ∃ db2, get_or_create_chat db tc now = some db2 ∧
        UniqueBy ChatRow.telegram_id db2 ∧
        ((∀ r ∈ db, r.telegram_id ≠ tc.id) → db2 = db ++ [newChatRow tc]) ∧
        ((∃ r ∈ db, r.telegram_id = tc.id) →
          db2 = db.map
            (fun r => if r.telegram_id == tc.id then updatedChatRow r tc now else r) ∧
          db2.length = db.length)) := by
  constructor
  · intro db tu now hU
    unfold get_or_create_user
    cases hf : db.filter (fun r => r.telegram_id == tu.id) with
    | nil =>
        refine ⟨db ++ [newUserRow tu now], rfl,
          upsertInsertUnique UserRow.telegram_id (newUserRow tu now) db tu.id rfl hU hf,
          fun _ => rfl, ?_⟩
        rintro ⟨r, hr, hkey⟩
        exact absurd hkey (upsertNoMatch UserRow.telegram_id db tu.id hf r hr)
    | cons a tail =>
        cases tail with
        | nil =>
            exact ⟨_, rfl,
              upsertUpdateUnique UserRow.telegram_id (fun r => updatedUserRow r tu now)
                db tu.id (fun r => rfl) hU,
              fun hno => absurd (upsertMatchMem UserRow.telegram_id db tu.id a [] hf).2
                (hno a (upsertMatchMem UserRow.telegram_id db tu.id a [] hf).1),
              fun _ => ⟨rfl, by rw [List.length_map]⟩⟩
        | cons b tail2 =>
            exact absurd hf
              (fun hf => upsertTwoImpossible UserRow.telegram_id db tu.id a b tail2 hU hf)
  · intro db tc now hU
    unfold get_or_create_chat
    cases hf : db.filter (fun r => r.telegram_id == tc.id) with
    | nil =>
        refine ⟨db ++ [newChatRow tc], rfl,
          upsertInsertUnique ChatRow.telegram_id (newChatRow tc) db tc.id rfl hU hf,
          fun _ => rfl, ?_⟩
        rintro ⟨r, hr, hkey⟩
        exact absurd hkey (upsertNoMatch ChatRow.telegram_id db tc.id hf r hr)
    | cons a tail =>
        cases tail with
        | nil =>
            exact ⟨_, rfl,
              upsertUpdateUnique ChatRow.telegram_id (fun r => updatedChatRow r tc now)
                db tc.id (fun r => rfl) hU,
              fun hno => absurd (upsertMatchMem ChatRow.telegram_id db tc.id a [] hf).2
                (hno a (upsertMatchMem ChatRow.telegram_id db tc.id a [] hf).1),
              fun _ => ⟨rfl, by rw [List.length_map]⟩⟩
        | cons b tail2 =>
            exact absurd hf
              (fun hf => upsertTwoImpossible ChatRow.telegram_id db tc.id a b tail2 hU hf)

/-- A sample Telegram user for the C5 witness. -/
def tuSample : TelegramUserIn :=
  { id := 7, username := some "u", first_name := "F", last_name := none,
    language_code := none, is_bot := false, is_premium := false }

/-- A sample Telegram chat for the C5 witness. -/
def tcSample : TelegramChatIn :=
  { id := 9, type := "private", title := none, username := none,
    first_name := none, last_name := none, description := none }

/-- Witness for C5 on the empty table: both upserts insert. -/
theorem get_or_create_upsert_unique_witness :
    (∃ db2, get_or_create_user [] tuSample 0 = some db2 ∧
      UniqueBy UserRow.telegram_id db2 ∧
      ((∀ r ∈ ([] : List UserRow), r.telegram_id ≠ tuSample.id) →
        db2 = [] ++ [newUserRow tuSample 0]) ∧
      ((∃ r ∈ ([] : List UserRow), r.telegram_id = tuSample.id) →
        db2 = ([] : List UserRow).map
          (fun r => if r.telegram_id == tuSample.id then updatedUserRow r tuSample 0 else r) ∧
        db2.length = ([] : List UserRow).length)) ∧
    (∃ db2, get_or_create_chat [] tcSample 0 = some db2 ∧
      UniqueBy ChatRow.telegram_id db2 ∧
      ((∀ r ∈ ([] : List ChatRow), r.telegram_id ≠ tcSample.id) →
        db2 = [] ++ [newChatRow tcSample]) ∧
      ((∃ r ∈ ([] : List ChatRow), r.telegram_id = tcSample.id) →
        db2 = ([] : List ChatRow).map
          (fun r => if r.telegram_id == tcSample.id then updatedChatRow r tcSample 0 else r) ∧
        db2.length = ([] : List ChatRow).length)) :=
  ⟨get_or_create_upsert_unique.1 [] tuSample 0 (fun _ => by simp),
   get_or_create_upsert_unique.2 [] tcSample 0 (fun _ => by simp)⟩

end TgApi
